import Mathlib

/-
Verification of the task-lifecycle and polling/event-consumption contract of
`neo_task.py` (Pulumi Neo Task Manager CLI).

Shallow embedding notes:
* JSON values parsed from API responses are modelled by the inductive `Json`
  (numbers as `Int`; the script never does arithmetic on response numbers, so
  float precision is irrelevant to every property here).
* Python truthiness of a JSON value is `Json.truthy`; `optTruthy` is the
  truthiness of a `dict.get` result (`None` is falsy).
* An event (one element of the `events` list of a 200 response, see
  `get_events`, lines 141-160) is modelled at the schema level by `Event`:
  the three keys the script reads (`id`, `type`, `eventBody`) with `none`
  for a missing key, and the body as the field list of a JSON object
  (`event.get("eventBody", {})` collapses a missing body to the empty object).
* HTTP is modelled by its observable pieces: the status code of a response
  and its parsed JSON body, supplied as oracles.  Task status values and
  continuation tokens are modelled at the API's schema level as strings when
  present (`Option String`); event ids and approval-request ids stay full
  JSON values, because the script's truthiness tests on them are
  load-bearing.  Wall-clock time (`time.time() - start_time`) is modelled by
  a function `elapsed` from the iteration index to the reading at the top of
  that iteration.
* `print` side effects of the poll loop that carry event data are collected
  in the `emitted` fields; banner/diagnostic prints carry no state and are
  not modelled.
-/

namespace NeoTask

/-- JSON value as produced by `response.json()` / `json.loads`. -/
inductive Json where
  | null
  | bool (b : Bool)
  | num (n : Int)
  | str (s : String)
  | arr (elems : List Json)
  | obj (fields : List (String × Json))

mutual

/-- Boolean equality of JSON values. -/
def Json.beq : Json → Json → Bool
  | .null, .null => true
  | .bool a, .bool b => a == b
  | .num a, .num b => a == b
  | .str a, .str b => a == b
  | .arr xs, .arr ys => Json.beqList xs ys
  | .obj xs, .obj ys => Json.beqFields xs ys
  | _, _ => false

/-- Boolean equality of JSON arrays. -/
def Json.beqList : List Json → List Json → Bool
  | [], [] => true
  | x :: xs, y :: ys => Json.beq x y && Json.beqList xs ys
  | _, _ => false

/-- Boolean equality of JSON object field lists. -/
def Json.beqFields : List (String × Json) → List (String × Json) → Bool
  | [], [] => true
  | (k, v) :: xs, (l, w) :: ys => k == l && Json.beq v w && Json.beqFields xs ys
  | _, _ => false

end

mutual

/-- `Json.beq` decides equality. -/
theorem Json.beq_iff : ∀ a b : Json, Json.beq a b = true ↔ a = b
  | .null, b => by cases b <;> simp [Json.beq]
  | .bool a, b => by cases b <;> simp [Json.beq]
  | .num a, b => by cases b <;> simp [Json.beq]
  | .str a, b => by cases b <;> simp [Json.beq]
  | .arr xs, b => by
      cases b <;> simp [Json.beq]
      exact Json.beqList_iff xs _
  | .obj xs, b => by
      cases b <;> simp [Json.beq]
      exact Json.beqFields_iff xs _

/-- `Json.beqList` decides equality of JSON arrays. -/
theorem Json.beqList_iff : ∀ xs ys : List Json, Json.beqList xs ys = true ↔ xs = ys
  | [], [] => by simp [Json.beqList]
  | [], _ :: _ => by simp [Json.beqList]
  | _ :: _, [] => by simp [Json.beqList]
  | x :: xs, y :: ys => by
      simp [Json.beqList, Json.beq_iff x y, Json.beqList_iff xs ys]

/-- `Json.beqFields` decides equality of JSON object field lists. -/
theorem Json.beqFields_iff :
    ∀ xs ys : List (String × Json), Json.beqFields xs ys = true ↔ xs = ys
  | [], [] => by simp [Json.beqFields]
  | [], _ :: _ => by simp [Json.beqFields]
  | _ :: _, [] => by simp [Json.beqFields]
  | (k, v) :: xs, (l, w) :: ys => by
      simp [Json.beqFields, Json.beq_iff v w, Json.beqFields_iff xs ys, and_assoc]

end

instance : DecidableEq Json :=
  fun a b => decidable_of_iff (Json.beq a b = true) (Json.beq_iff a b)

/-- Python truthiness of a JSON value (`if x:`): `None`, `False`, `0`, `""`,
`[]` and `{}` are falsy, everything else truthy. -/
def Json.truthy : Json → Bool
  | .null => false
  | .bool b => b
  | .num n => !(n == 0)
  | .str s => !(s == "")
  | .arr elems => !elems.isEmpty
  | .obj fields => !fields.isEmpty

/-- Python truthiness of a `dict.get(key)` result: `None` (missing key) is
falsy, a present value is tested with `Json.truthy`. -/
def optTruthy : Option Json → Bool
  | none => false
  | some v => v.truthy

/-- Python truthiness of an optional string (argparse option, continuation
token): `None` and `""` are falsy. -/
def strTruthy : Option String → Bool
  | none => false
  | some s => !(s = "")

/-- Field lookup in a JSON object's field list: `body.get(key)`, `None` when
the key is missing. -/
def lookupField (body : List (String × Json)) (key : String) : Option Json :=
  (body.find? (fun p => p.1 = key)).map Prod.snd

/-- Field lookup with a default: `body.get(key, d)`. -/
def bodyGet (body : List (String × Json)) (key : String) (d : Json) : Json :=
  match lookupField body key with
  | some v => v
  | none => d

mutual

/-- Python `repr()` of a JSON-derived value (used by `str()` for values nested
in containers).  String escaping inside `repr` is not reproduced; no verified
property depends on this text. -/
def Json.pyRepr : Json → String
  | .null => "None"
  | .bool true => "True"
  | .bool false => "False"
  | .num n => toString n
  | .str s => "\x27" ++ s ++ "\x27"
  | .arr elems => "[" ++ String.intercalate (", ") (Json.pyReprList elems) ++ "]"
  | .obj fields => "\x7b" ++ String.intercalate (", ") (Json.pyReprFields fields) ++ "\x7d"

/-- `repr` of each element of a JSON array. -/
def Json.pyReprList : List Json → List String
  | [] => []
  | v :: vs => Json.pyRepr v :: Json.pyReprList vs

/-- `repr` of each `key: value` entry of a JSON object. -/
def Json.pyReprFields : List (String × Json) → List String
  | [] => []
  | (k, v) :: fs => ("\x27" ++ k ++ "\x27: " ++ Json.pyRepr v) :: Json.pyReprFields fs

end

/-- Python `str()` of a JSON-derived value, as used by f-string interpolation:
a string interpolates as itself, every other value as its `repr`. -/
def Json.pyStr : Json → String
  | .str s => s
  | v => v.pyRepr

/-- Two-space indentation prefix at a given nesting level, as produced by
`json.dumps(..., indent=2)`. -/
def dumpsPad (level : Nat) : String :=
  String.join (List.replicate (level * 2) (" "))

mutual

/-- `json.dumps(value, indent=2)` at a given nesting level (string escaping
not reproduced; no verified property depends on this text). -/
def Json.dumps : Json → Nat → String
  | .null, _ => "null"
  | .bool true, _ => "true"
  | .bool false, _ => "false"
  | .num n, _ => toString n
  | .str s, _ => "\"" ++ s ++ "\""
  | .arr [], _ => "[]"
  | .arr (v :: vs), level =>
      "[\n" ++ String.intercalate (",\n") (Json.dumpsList (v :: vs) (level + 1))
        ++ "\n" ++ dumpsPad level ++ "]"
  | .obj [], _ => "\x7b\x7d"
  | .obj (f :: fs), level =>
      "\x7b\n" ++ String.intercalate (",\n") (Json.dumpsFields (f :: fs) (level + 1))
        ++ "\n" ++ dumpsPad level ++ "\x7d"

/-- Indented dump of each element of a JSON array. -/
def Json.dumpsList : List Json → Nat → List String
  | [], _ => []
  | v :: vs, level => (dumpsPad level ++ Json.dumps v level) :: Json.dumpsList vs level

/-- Indented dump of each `"key": value` entry of a JSON object. -/
def Json.dumpsFields : List (String × Json) → Nat → List String
  | [], _ => []
  | (k, v) :: fs, level =>
      (dumpsPad level ++ "\"" ++ k ++ "\": " ++ Json.dumps v level) :: Json.dumpsFields fs level

end

/-- One element of the `events` list of a 200 events response, at the schema
level read by the script: `event.get("id")`, `event.get("type")` (both `none`
when the key is missing) and `event.get("eventBody", {})` as the field list of
a JSON object. -/
structure Event where
  id : Option Json := none
  type_ : Option Json := none
  eventBody : List (String × Json) := []
deriving DecidableEq

/-- format_event (neo_task.py lines 211-227): pure map from an event to its
display string. -/
def format_event (event : Event) : String :=
  let event_type := event.type_.getD (Json.str ("unknown"))
  let body := event.eventBody
  if event_type = Json.str ("agentResponse") then
    "\n[Neo] " ++ (bodyGet body ("content") (Json.str (""))).pyStr
  else if event_type = Json.str ("userInput") then
    "\n[You] " ++ (bodyGet body ("content") (Json.str (""))).pyStr
  else if event_type = Json.str ("approvalRequest") then
    "\n[Approval Required] " ++ (bodyGet body ("description") (Json.str (""))).pyStr
      ++ "\n  Request ID: " ++ (bodyGet body ("approval_request_id") (Json.str (""))).pyStr
  else
    "\n[" ++ event_type.pyStr ++ "] " ++ Json.dumps (Json.obj body) 0

/-- Parsed JSON body of an events response (lines 154-156): `data.get("events", [])`
and `data.get("continuationToken")`; both keys optional, the token a string
when present. -/
structure EventsPage where
  events : List Event := []
  continuationToken : Option String := none
deriving DecidableEq

/-- Query parameters of an events request. -/
structure EventsParams where
  pageSize : Nat := 100
  continuationToken : Option String := none
deriving DecidableEq

/-- Request parameters built by get_events (lines 148-150): fixed page size
100; the cursor is attached only when `continuation_token` is truthy. -/
def events_params (continuation_token : Option String) : EventsParams :=
  if strTruthy continuation_token then
    { pageSize := 100, continuationToken := continuation_token }
  else
    { pageSize := 100 }

/-- get_events (lines 141-160): given the caller's continuation token and the
HTTP response (status code and parsed body), returns the request parameters it
sent together with the `(events, next token)` pair the Python function
returns.  On a 200 it returns the body's events and token; on any other
status it prints the error and returns `([], None)` — it is total, i.e. it
never raises. -/
def get_events (continuation_token : Option String) (respCode : Nat)
    (respBody : EventsPage) : EventsParams × (List Event × Option String) :=
  (events_params continuation_token,
    if respCode = 200 then (respBody.events, respBody.continuationToken)
    else ([], none))

/-- Body of a POST to the per-task URL (send_approval lines 163-176,
send_cancel lines 179-191, send_message lines 194-208): the `event` envelope,
differentiated by its `type` field. -/
structure SendEventPayload where
  type_ : String
  approval_request_id : Option Json := none
  content : Option String := none
  timestamp : String
  entity_diff_add_empty : Bool := false
deriving DecidableEq

/-- send_approval (lines 163-176): POSTs a `user_confirmation` event carrying
the approval request id; returns `response.status_code == 202`. -/
def send_approval (approval_request_id : Json) (timestamp : String)
    (respCode : Nat) : SendEventPayload × Bool :=
  ({ type_ := "user_confirmation", approval_request_id := some approval_request_id,
     timestamp := timestamp },
   respCode == 202)

/-- send_cancel (lines 179-191): POSTs a `user_cancel` event; returns
`response.status_code == 202`. -/
def send_cancel (timestamp : String) (respCode : Nat) : SendEventPayload × Bool :=
  ({ type_ := "user_cancel", timestamp := timestamp }, respCode == 202)

/-- send_message (lines 194-208): POSTs a follow-up `user_message` event with
an empty entity diff; returns `response.status_code == 202`. -/
def send_message (message : String) (timestamp : String)
    (respCode : Nat) : SendEventPayload × Bool :=
  ({ type_ := "user_message", content := some message, timestamp := timestamp,
     entity_diff_add_empty := true },
   respCode == 202)

/-- Entity reference attached to a task-creation message (lines 76-89): a
stack `{type, name, project}` or a repository `{type, name, org, forge}`;
the first constructor argument after the tag mirrors the JSON fields in
source order. -/
inductive Entity where
  | stack (name : String) (project : String)
  | repository (name : String) (org : String) (forge : String)
deriving DecidableEq

/-- Entity list built by create_task (lines 74-89): the stack entity is added
only when both `stack_name` and `stack_project` are truthy, then the
repository entity only when both `repo_name` and `repo_org` are truthy. -/
def create_entities (stack_name stack_project repo_name repo_org : Option String)
    (repo_forge : String) : List Entity :=
  (if strTruthy stack_name && strTruthy stack_project then
    [Entity.stack (stack_name.getD ("")) (stack_project.getD (""))]
  else []) ++
  (if strTruthy repo_name && strTruthy repo_org then
    [Entity.repository (repo_name.getD ("")) (repo_org.getD ("")) repo_forge]
  else [])

/-- Payload of create_task (lines 91-101): the `user_message` envelope with the
message text, a UTC timestamp, and the entity diff `add`/`remove` lists. -/
structure CreatePayload where
  type_ : String
  content : String
  timestamp : String
  entity_diff_add : List Entity
  entity_diff_remove : List Entity
deriving DecidableEq

/-- Request payload built by create_task (lines 62-103) for the POST to
`/{org}/tasks`. -/
def create_task_payload (message : String) (timestamp : String)
    (stack_name stack_project repo_name repo_org : Option String)
    (repo_forge : String) : CreatePayload :=
  { type_ := "user_message", content := message, timestamp := timestamp,
    entity_diff_add := create_entities stack_name stack_project repo_name repo_org repo_forge,
    entity_diff_remove := [] }

/-- Outcome of the create-task branch of main. -/
inductive CreateOutcome where
  /-- `sys.exit(1)` in the flag-combination validation, before any network
  call is attempted. -/
  | invalidExit
  /-- Validation passed; create_task is called and POSTs this payload. -/
  | request (payload : CreatePayload)
deriving DecidableEq

/-- Create-task branch of main (lines 472-492): reject a stack name without a
stack project (or a repo name without a repo org) with a non-zero exit before
create_task — and hence any network traffic — is reached; otherwise build the
create_task payload.  Argparse yields `None` for an absent option; truthiness
is `strTruthy`. -/
def main_create (message : String) (timestamp : String)
    (stack_name stack_project repo_name repo_org : Option String)
    (repo_forge : String) : CreateOutcome :=
  if strTruthy stack_name && !strTruthy stack_project then .invalidExit
  else if strTruthy repo_name && !strTruthy repo_org then .invalidExit
  else .request (create_task_payload message timestamp
    stack_name stack_project repo_name repo_org repo_forge)

/-- Outcome of the approve/cancel branch of main. -/
inductive RespondOutcome where
  /-- `sys.exit(1)`: `--task-id` missing (line 424). -/
  | exitMissingTaskId
  /-- `sys.exit(1)`: no approval request id found (lines 438-441). -/
  | exitMissingApprovalId
  /-- send_approval is called with this approval request id (line 442). -/
  | approvalSent (approvalId : Json)
  /-- send_cancel is called (line 449). -/
  | cancelSent
deriving DecidableEq

/-- Auto-detection of the approval id (lines 429-435): scan the fetched events
in reverse for the first `approvalRequest` and take its body's
`approval_request_id` (which may itself be missing). -/
def find_approval_from_events (events : List Event) : Option Json :=
  match events.reverse.find? (fun e => e.type_ == some (Json.str ("approvalRequest"))) with
  | some e => lookupField e.eventBody ("approval_request_id")
  | none => none

/-- Approve/cancel branch of main (lines 422-454), entered when `--approve` or
`--cancel` is set.  `approval_id_arg` is the `--approval-id` option;
`eventsFetched` is the event list a get_events call inside the branch would
return (the call is made only on the approve path with no explicit id).
Note the body dispatches on `approve` alone: with both flags set the `else`
(cancel) arm is never reached. -/
def main_respond (approve : Bool) (cancel : Bool) (task_id : Option String)
    (approval_id_arg : Option String) (eventsFetched : List Event) : RespondOutcome :=
  if !strTruthy task_id then .exitMissingTaskId
  else
    let approval_id : Option Json := approval_id_arg.map Json.str
    let approval_id :=
      if !optTruthy approval_id && approve then find_approval_from_events eventsFetched
      else approval_id
    if approve then
      match approval_id with
      | some v => if v.truthy then .approvalSent v else .exitMissingApprovalId
      | none => .exitMissingApprovalId
    else .cancelSent

/-- In-memory state of one poll session (poll_task lines 241-244):
`seen_events` (a set of the JSON id values already displayed, as a
duplicate-free list), `continuation_token`, and `pending_approval_id` (the
raw `body.get("approval_request_id")` result of the latest displayed
approvalRequest, so possibly `None`). -/
structure PollState where
  seen : List Json := []
  token : Option String := none
  pending : Option Json := none
deriving DecidableEq

/-- Initial poll state (lines 241-244): empty seen set, no token, no pending
approval. -/
def initState : PollState := {}

/-- Body of the per-event loop (lines 261-270) for one event: if the event's
id is truthy and not yet seen, mark it seen, emit the event
(`print(format_event(event))`), and if its type is `approvalRequest` record
its body's `approval_request_id` as the new pending approval; otherwise do
nothing.  Returns the updated state and the list (empty or singleton) of
events emitted. -/
def processEvent (st : PollState) (ev : Event) : PollState × List Event :=
  match ev.id with
  | none => (st, [])
  | some idv =>
    if idv.truthy ∧ idv ∉ st.seen then
      ({ st with
          seen := idv :: st.seen,
          pending :=
            if ev.type_ = some (Json.str ("approvalRequest")) then
              lookupField ev.eventBody ("approval_request_id")
            else st.pending },
        [ev])
    else (st, [])

/-- The per-event loop (lines 261-270) over a fetched event page, in arrival
order; emitted events are concatenated in order. -/
def processEvents (st : PollState) : List Event → PollState × List Event
  | [] => (st, [])
  | ev :: evs =>
    let r := processEvent st ev
    let rest := processEvents r.1 evs
    (rest.1, r.2 ++ rest.2)

/-- What the server answers during one poll iteration: the HTTP status code
and (when 200) the `status` field of the get_task response, and the HTTP
status code and body of the get_events response. -/
structure IterObs where
  taskCode : Nat := 200
  taskStatus : Option String := none
  eventsCode : Nat := 200
  eventsBody : EventsPage := {}
deriving DecidableEq

/-- Task status string of an iteration: `task.get("status", "unknown")`
(line 256). -/
def statusOf (o : IterObs) : String :=
  o.taskStatus.getD ("unknown")

/-- The continuation token a get_events call returns under observation `o`
(independent of the token it was passed). -/
def returnedToken (o : IterObs) : Option String :=
  if o.eventsCode = 200 then o.eventsBody.continuationToken else none

/-- Why the poll loop ended. -/
inductive StopReason where
  /-- Elapsed time exceeded `max_wait` (lines 248-252): timeout message,
  `break`. -/
  | timeout
  /-- get_task got a non-200 response: `sys.exit(1)` inside get_task
  (lines 121-124). -/
  | fatalExit
  /-- Status was `completed` or `failed` (lines 276-279): `break`. -/
  | terminal
  /-- Status was `waiting_for_approval` with a truthy pending approval id
  (lines 282-287): `break`. -/
  | approval
deriving DecidableEq

/-- Result of one iteration of the poll loop. -/
structure IterResult where
  state : PollState
  emitted : List Event
  stop : Option StopReason
  slept : Bool
deriving DecidableEq

/-- Event-consumption part of one iteration (lines 259-273): fetch events
with the stored continuation token, run the per-event loop, then advance the
stored token only if the returned one is truthy. -/
def pollFetchStep (o : IterObs) (st : PollState) : PollState × List Event :=
  let fetched := (get_events st.token o.eventsCode o.eventsBody).2
  let p := processEvents st fetched.1
  (if strTruthy fetched.2 then { p.1 with token := fetched.2 } else p.1, p.2)

/-- One iteration of the poll loop (lines 246-289), given the elapsed-time
reading at its top: timeout check first; then get_task (whose non-200 exits
the process before events are fetched); then the event fetch/consumption
step; then the terminal-status check, the awaiting-approval check, and
otherwise `time.sleep(poll_interval)` and continue. -/
def pollIter (max_wait : ℚ) (elapsed : ℚ) (o : IterObs) (st : PollState) : IterResult :=
  if max_wait < elapsed then ⟨st, [], some StopReason.timeout, false⟩
  else if ¬ o.taskCode = 200 then ⟨st, [], some StopReason.fatalExit, false⟩
  else if statusOf o = "completed" ∨ statusOf o = "failed" then
    ⟨(pollFetchStep o st).1, (pollFetchStep o st).2, some StopReason.terminal, false⟩
  else if statusOf o = "waiting_for_approval" ∧ optTruthy (pollFetchStep o st).1.pending then
    ⟨(pollFetchStep o st).1, (pollFetchStep o st).2, some StopReason.approval, false⟩
  else ⟨(pollFetchStep o st).1, (pollFetchStep o st).2, none, true⟩

/-- Result of running the poll loop: final state, all events emitted in
order, why it stopped (`none` when the given iteration budget ran out while
still polling), how many full iterations (status fetch plus event fetch,
i.e. iterations that got past the timeout check and get_task) it performed,
and how many times it slept. -/
structure RunResult where
  state : PollState
  emitted : List Event
  stop : Option StopReason
  fullIters : Nat
  sleeps : Nat
deriving DecidableEq

/-- poll_task's `while True` loop (lines 246-289), unrolled for at most `fuel`
iterations starting at iteration index `k`: `elapsed i` is the
`time.time() - start_time` reading at the top of iteration `i`, and `obs i`
what the server answers during iteration `i`. -/
def poll_task (max_wait : ℚ) (elapsed : Nat → ℚ) (obs : Nat → IterObs) :
    Nat → Nat → PollState → RunResult
  | _, 0, st => ⟨st, [], none, 0, 0⟩
  | k, fuel + 1, st =>
    let r := pollIter max_wait (elapsed k) (obs k) st
    match r.stop with
    | some reason =>
      ⟨r.state, r.emitted, some reason,
        if reason = StopReason.timeout ∨ reason = StopReason.fatalExit then 0 else 1,
        0⟩
    | none =>
      let rest := poll_task max_wait elapsed obs (k + 1) fuel r.state
      ⟨rest.state, r.emitted ++ rest.emitted, rest.stop,
        1 + rest.fullIters, 1 + rest.sleeps⟩

/-- Token the spec says fetch `k + n + 1` must use, written from the claim's
words: starting from token `t0` before iteration `k`, after the fetches of
iterations `k, …, k + n - 1` it is the token returned by the most recent
fetch that returned a truthy one, and still `t0` if none did. -/
def tokenFoldSpec (obs : Nat → IterObs) : Option String → Nat → Nat → Option String
  | t0, _, 0 => t0
  | t0, k, n + 1 =>
    tokenFoldSpec obs
      (if strTruthy (returnedToken (obs k)) then returnedToken (obs k) else t0)
      (k + 1) n

/-- Pending approval id the spec says the poller must record, written from the
claim's words: fold over the emitted events in order, each emitted
`approvalRequest` overwriting the recorded id with its body's
`approval_request_id`, so only the latest one is kept. -/
def lastApprovalPending : List Event → Option Json → Option Json
  | [], p => p
  | ev :: evs, p =>
    lastApprovalPending evs
      (if ev.type_ = some (Json.str ("approvalRequest")) then
        lookupField ev.eventBody ("approval_request_id")
      else p)

/-- Concrete approvalRequest event carrying id "req_41" (test scenario). -/
def evA1 : Event :=
  { id := some (Json.str ("e1")), type_ := some (Json.str ("approvalRequest")),
    eventBody := [(("approval_request_id"), Json.str ("req_41"))] }

/-- Concrete approvalRequest event carrying id "req_42" (test scenario). -/
def evA2 : Event :=
  { id := some (Json.str ("e2")), type_ := some (Json.str ("approvalRequest")),
    eventBody := [(("approval_request_id"), Json.str ("req_42"))] }

/-- Concrete two-iteration schedule: a running iteration that delivers the
"req_41" approval request, then a waiting_for_approval iteration that
delivers the "req_42" one (test scenario). -/
def obsApprove : Nat → IterObs := fun j =>
  if j = 0 then
    { taskStatus := some ("running"), eventsBody := { events := [evA1] } }
  else
    { taskStatus := some ("waiting_for_approval"), eventsBody := { events := [evA2] } }

/-- Concrete mid-session poll state: "e1" seen, "req_41" pending (test
scenario). -/
def stApprove : PollState :=
  { seen := [Json.str ("e1")], token := none, pending := some (Json.str ("req_41")) }

/-- State after the per-event loop body emits an event with id `v` from state
`st` (the update performed by lines 263-270). -/
def stepState (ev : Event) (v : Json) (st : PollState) : PollState :=
  { st with
      seen := v :: st.seen,
      pending :=
        if ev.type_ = some (Json.str ("approvalRequest")) then
          lookupField ev.eventBody ("approval_request_id")
        else st.pending }

/-- Elapsed-time readings six seconds apart (test scenario: five seconds of
sleep plus one second of request overhead per iteration). -/
def elSix : Nat → ℚ := fun k => 6 * k

/-- Schedule on which the task stays `running` forever and no events arrive
(test scenario). -/
def obsRunning : Nat → IterObs := fun _ => { taskStatus := some ("running") }

/-- Concrete agentResponse event with id "x1" (test scenario). -/
def evT1 : Event :=
  { id := some (Json.str ("x1")), type_ := some (Json.str ("agentResponse")),
    eventBody := [(("content"), Json.str ("one"))] }

/-- Concrete agentResponse event with id "x2" (test scenario). -/
def evT2 : Event :=
  { id := some (Json.str ("x2")), type_ := some (Json.str ("agentResponse")),
    eventBody := [(("content"), Json.str ("two"))] }

/-- Concrete agentResponse event with id "x3" (test scenario). -/
def evT3 : Event :=
  { id := some (Json.str ("x3")), type_ := some (Json.str ("agentResponse")),
    eventBody := [(("content"), Json.str ("three"))] }

/-- Schedule whose status sequence is running, running, completed, delivering
one fresh event per fetch (test scenario). -/
def obsTerminal : Nat → IterObs := fun j =>
  if j = 0 then
    { taskStatus := some ("running"), eventsBody := { events := [evT1] } }
  else if j = 1 then
    { taskStatus := some ("running"), eventsBody := { events := [evT2] } }
  else
    { taskStatus := some ("completed"), eventsBody := { events := [evT3] } }

/-- Id values of a list of emitted events, in emission order. -/
def emittedIds (l : List Event) : List Json :=
  l.filterMap Event.id

/-- Events actually contained in a get_events fetch under observation `o`
(independent of the token passed): the body's events on a 200, nothing
otherwise. -/
def fetchedEvents (o : IterObs) : List Event :=
  if o.eventsCode = 200 then o.eventsBody.events else []

theorem emittedIds_append (l1 l2 : List Event) :
    emittedIds (l1 ++ l2) = emittedIds l1 ++ emittedIds l2 :=
  List.filterMap_append l1 l2 Event.id

/-- Case analysis on one step of the per-event loop: either the event is
skipped (falsy or already-seen id) and nothing changes, or its id is truthy
and fresh, it is emitted, its id marked seen, and the pending approval updated
iff its type is `approvalRequest`. -/
theorem processEvent_eq (st : PollState) (ev : Event) :
    processEvent st ev = (st, []) ∨
    ∃ v, ev.id = some v ∧ v.truthy = true ∧ v ∉ st.seen ∧
      processEvent st ev =
        ({ st with
            seen := v :: st.seen,
            pending :=
              if ev.type_ = some (Json.str ("approvalRequest")) then
                lookupField ev.eventBody ("approval_request_id")
              else st.pending },
          [ev]) := by
  unfold processEvent
  cases h : ev.id with
  | none => exact Or.inl rfl
  | some v =>
    by_cases hv : v.truthy ∧ v ∉ st.seen
    · exact Or.inr ⟨v, rfl, hv.1, hv.2, by simp [hv]⟩
    · exact Or.inl (by simp [hv])

theorem processEvent_skip (st : PollState) (ev : Event)
    (h : optTruthy ev.id = false) : processEvent st ev = (st, []) := by
  unfold processEvent
  cases hid : ev.id with
  | none => rfl
  | some v =>
    rw [hid] at h
    simp only [optTruthy] at h
    simp [h]

theorem processEvent_emit (st : PollState) (ev : Event) (v : Json)
    (hid : ev.id = some v) (ht : v.truthy = true) (hn : v ∉ st.seen) :
    processEvent st ev =
      ({ st with
          seen := v :: st.seen,
          pending :=
            if ev.type_ = some (Json.str ("approvalRequest")) then
              lookupField ev.eventBody ("approval_request_id")
            else st.pending },
        [ev]) := by
  unfold processEvent
  rw [hid]
  simp [ht, hn]

theorem processEvents_token (evs : List Event) :
    ∀ st : PollState, (processEvents st evs).1.token = st.token := by
  induction evs with
  | nil => intro st; rfl
  | cons ev evs ih =>
    intro st
    simp only [processEvents]
    rcases processEvent_eq st ev with h | ⟨v, _, _, _, h⟩ <;> rw [h] <;> exact ih _

theorem processEvents_pending (evs : List Event) :
    ∀ st : PollState,
      (processEvents st evs).1.pending =
        lastApprovalPending (processEvents st evs).2 st.pending := by
  induction evs with
  | nil => intro st; rfl
  | cons ev evs ih =>
    intro st
    simp only [processEvents]
    rcases processEvent_eq st ev with h | ⟨v, _, _, _, h⟩ <;>
      rw [h] <;> simp [lastApprovalPending, ih]

theorem processEvents_seen_spec (evs : List Event) :
    ∀ st : PollState,
      (∀ v, v ∈ (processEvents st evs).1.seen ↔
          v ∈ emittedIds (processEvents st evs).2 ∨ v ∈ st.seen)
      ∧ (∀ v ∈ emittedIds (processEvents st evs).2, v ∉ st.seen)
      ∧ (emittedIds (processEvents st evs).2).Nodup := by
  induction evs with
  | nil =>
    intro st
    refine ⟨fun v => by simp [processEvents, emittedIds], ?_, ?_⟩ <;>
      simp [processEvents, emittedIds]
  | cons ev evs ih =>
    intro st
    simp only [processEvents]
    rcases processEvent_eq st ev with h | ⟨v, hid, ht, hn, h⟩
    · rw [h]
      simpa using ih st
    · rw [h]
      obtain ⟨ih1, ih2, ih3⟩ :=
        ih ({ st with
          seen := v :: st.seen,
          pending :=
            if ev.type_ = some (Json.str ("approvalRequest")) then
              lookupField ev.eventBody ("approval_request_id")
            else st.pending })
      simp only [emittedIds, List.filterMap_append, List.filterMap_cons, hid,
        List.filterMap_nil] at ih1 ih2 ih3 ⊢
      refine ⟨?_, ?_, ?_⟩
      · intro w
        rw [ih1 w]
        simp only [List.mem_cons, List.mem_append, List.mem_singleton]
        tauto
      · intro w hw
        simp only [List.mem_append, List.mem_singleton] at hw
        rcases hw with hw | hw
        · exact hw ▸ hn
        · intro hmem
          exact ih2 w hw (List.mem_cons_of_mem v hmem)
      · refine List.Nodup.cons ?_ ih3
        intro hmem
        exact ih2 v hmem (List.mem_cons_self v st.seen)

theorem pollFetchStep_eq (o : IterObs) (st : PollState) :
    pollFetchStep o st =
      ((if strTruthy (returnedToken o) then
          { (processEvents st (fetchedEvents o)).1 with token := returnedToken o }
        else (processEvents st (fetchedEvents o)).1),
       (processEvents st (fetchedEvents o)).2) := by
  unfold pollFetchStep get_events fetchedEvents returnedToken
  by_cases h : o.eventsCode = 200 <;> simp [h]

theorem pollFetchStep_seen (o : IterObs) (st : PollState) :
    (pollFetchStep o st).1.seen = (processEvents st (fetchedEvents o)).1.seen := by
  rw [pollFetchStep_eq]
  by_cases h : strTruthy (returnedToken o) <;> simp [h]

theorem pollFetchStep_pending (o : IterObs) (st : PollState) :
    (pollFetchStep o st).1.pending = (processEvents st (fetchedEvents o)).1.pending := by
  rw [pollFetchStep_eq]
  by_cases h : strTruthy (returnedToken o) <;> simp [h]

theorem pollFetchStep_emitted (o : IterObs) (st : PollState) :
    (pollFetchStep o st).2 = (processEvents st (fetchedEvents o)).2 := by
  rw [pollFetchStep_eq]

theorem pollFetchStep_token (o : IterObs) (st : PollState) :
    (pollFetchStep o st).1.token =
      if strTruthy (returnedToken o) then returnedToken o else st.token := by
  rw [pollFetchStep_eq]
  by_cases h : strTruthy (returnedToken o) <;>
    simp [h, processEvents_token (fetchedEvents o) st]

theorem pollIter_timeout_eq (mw el : ℚ) (o : IterObs) (st : PollState)
    (h : mw < el) :
    pollIter mw el o st = ⟨st, [], some StopReason.timeout, false⟩ := by
  unfold pollIter
  simp [h]

theorem pollIter_fatal_eq (mw el : ℚ) (o : IterObs) (st : PollState)
    (h1 : ¬ mw < el) (h2 : ¬ o.taskCode = 200) :
    pollIter mw el o st = ⟨st, [], some StopReason.fatalExit, false⟩ := by
  unfold pollIter
  simp [h1, h2]

theorem pollIter_state_emitted (mw el : ℚ) (o : IterObs) (st : PollState)
    (h1 : ¬ mw < el) (h2 : o.taskCode = 200) :
    (pollIter mw el o st).state = (pollFetchStep o st).1
    ∧ (pollIter mw el o st).emitted = (pollFetchStep o st).2 := by
  unfold pollIter
  rw [if_neg h1, if_neg (not_not_intro h2)]
  split_ifs <;> exact ⟨rfl, rfl⟩

theorem pollIter_continue_eq (mw el : ℚ) (o : IterObs) (st : PollState)
    (h1 : ¬ mw < el) (h2 : o.taskCode = 200)
    (hs1 : statusOf o ≠ "completed") (hs2 : statusOf o ≠ "failed")
    (hs3 : statusOf o ≠ "waiting_for_approval") :
    pollIter mw el o st =
      ⟨(pollFetchStep o st).1, (pollFetchStep o st).2, none, true⟩ := by
  unfold pollIter
  have hterm : ¬ (statusOf o = "completed" ∨ statusOf o = "failed") := by
    rintro (h | h)
    · exact hs1 h
    · exact hs2 h
  have happr : ¬ (statusOf o = "waiting_for_approval" ∧
      optTruthy (pollFetchStep o st).1.pending) := by
    rintro ⟨h, -⟩
    exact hs3 h
  rw [if_neg h1, if_neg (not_not_intro h2), if_neg hterm, if_neg happr]

theorem pollIter_terminal_iff (mw el : ℚ) (o : IterObs) (st : PollState)
    (h1 : ¬ mw < el) (h2 : o.taskCode = 200) :
    (pollIter mw el o st).stop = some StopReason.terminal ↔
      (statusOf o = "completed" ∨ statusOf o = "failed") := by
  unfold pollIter
  rw [if_neg h1, if_neg (not_not_intro h2)]
  split_ifs with hterm happr
  · exact iff_of_true rfl hterm
  · exact iff_of_false (by simp) hterm
  · exact iff_of_false (by simp) hterm

theorem pollIter_approval_eq (mw el : ℚ) (o : IterObs) (st : PollState)
    (h1 : ¬ mw < el) (h2 : o.taskCode = 200)
    (hs : statusOf o = "waiting_for_approval")
    (hp : optTruthy (pollFetchStep o st).1.pending = true) :
    pollIter mw el o st =
      ⟨(pollFetchStep o st).1, (pollFetchStep o st).2, some StopReason.approval, false⟩ := by
  unfold pollIter
  have hterm : ¬ (statusOf o = "completed" ∨ statusOf o = "failed") := by
    rw [hs]
    rintro (h | h) <;> simp at h
  rw [if_neg h1, if_neg (not_not_intro h2), if_neg hterm, if_pos ⟨hs, hp⟩]

theorem poll_task_zero (mw : ℚ) (el : Nat → ℚ) (obs : Nat → IterObs)
    (k : Nat) (st : PollState) :
    poll_task mw el obs k 0 st = ⟨st, [], none, 0, 0⟩ := rfl

theorem poll_task_succ_stop (mw : ℚ) (el : Nat → ℚ) (obs : Nat → IterObs)
    (k fuel : Nat) (st : PollState) (reason : StopReason)
    (h : (pollIter mw (el k) (obs k) st).stop = some reason) :
    poll_task mw el obs k (fuel + 1) st =
      ⟨(pollIter mw (el k) (obs k) st).state,
       (pollIter mw (el k) (obs k) st).emitted,
       some reason,
       if reason = StopReason.timeout ∨ reason = StopReason.fatalExit then 0 else 1,
       0⟩ := by
  unfold poll_task
  rcases hres : pollIter mw (el k) (obs k) st with ⟨s, em, stp, sl⟩
  rw [hres] at h
  obtain rfl : stp = some reason := h
  rfl

theorem poll_task_succ_cont (mw : ℚ) (el : Nat → ℚ) (obs : Nat → IterObs)
    (k fuel : Nat) (st : PollState)
    (h : (pollIter mw (el k) (obs k) st).stop = none) :
    poll_task mw el obs k (fuel + 1) st =
      ⟨(poll_task mw el obs (k + 1) fuel (pollIter mw (el k) (obs k) st).state).state,
       (pollIter mw (el k) (obs k) st).emitted ++
         (poll_task mw el obs (k + 1) fuel (pollIter mw (el k) (obs k) st).state).emitted,
       (poll_task mw el obs (k + 1) fuel (pollIter mw (el k) (obs k) st).state).stop,
       1 + (poll_task mw el obs (k + 1) fuel (pollIter mw (el k) (obs k) st).state).fullIters,
       1 + (poll_task mw el obs (k + 1) fuel (pollIter mw (el k) (obs k) st).state).sleeps⟩ := by
  conv_lhs => rw [poll_task]
  rcases hres : pollIter mw (el k) (obs k) st with ⟨s, em, stp, sl⟩
  rw [hres] at h
  obtain rfl : stp = none := h
  rfl

theorem pollIter_seen_spec (mw el : ℚ) (o : IterObs) (st : PollState) :
    (∀ v, v ∈ (pollIter mw el o st).state.seen ↔
        v ∈ emittedIds (pollIter mw el o st).emitted ∨ v ∈ st.seen)
    ∧ (∀ v ∈ emittedIds (pollIter mw el o st).emitted, v ∉ st.seen)
    ∧ (emittedIds (pollIter mw el o st).emitted).Nodup := by
  by_cases h1 : mw < el
  · rw [pollIter_timeout_eq mw el o st h1]
    refine ⟨fun v => by simp [emittedIds], ?_, ?_⟩ <;> simp [emittedIds]
  by_cases h2 : o.taskCode = 200
  · obtain ⟨hs, he⟩ := pollIter_state_emitted mw el o st h1 h2
    rw [hs, he, pollFetchStep_seen, pollFetchStep_emitted]
    exact processEvents_seen_spec (fetchedEvents o) st
  · rw [pollIter_fatal_eq mw el o st h1 h2]
    refine ⟨fun v => by simp [emittedIds], ?_, ?_⟩ <;> simp [emittedIds]

theorem pollIter_seen_sub (mw el : ℚ) (o : IterObs) (st : PollState) :
    st.seen ⊆ (pollIter mw el o st).state.seen := by
  intro v hv
  exact ((pollIter_seen_spec mw el o st).1 v).mpr (Or.inr hv)

theorem pollIter_pending (mw el : ℚ) (o : IterObs) (st : PollState) :
    (pollIter mw el o st).state.pending =
      lastApprovalPending (pollIter mw el o st).emitted st.pending := by
  by_cases h1 : mw < el
  · rw [pollIter_timeout_eq mw el o st h1]
    rfl
  by_cases h2 : o.taskCode = 200
  · obtain ⟨hs, he⟩ := pollIter_state_emitted mw el o st h1 h2
    rw [hs, he, pollFetchStep_pending, pollFetchStep_emitted]
    exact processEvents_pending (fetchedEvents o) st
  · rw [pollIter_fatal_eq mw el o st h1 h2]
    rfl

theorem pollIter_token (mw el : ℚ) (o : IterObs) (st : PollState)
    (h1 : ¬ mw < el) (h2 : o.taskCode = 200) :
    (pollIter mw el o st).state.token =
      if strTruthy (returnedToken o) then returnedToken o else st.token := by
  rw [(pollIter_state_emitted mw el o st h1 h2).1]
  exact pollFetchStep_token o st

theorem pollIter_stop_none_conds (mw el : ℚ) (o : IterObs) (st : PollState)
    (h : (pollIter mw el o st).stop = none) :
    ¬ mw < el ∧ o.taskCode = 200 := by
  by_cases h1 : mw < el
  · rw [pollIter_timeout_eq mw el o st h1] at h
    exact absurd h (by simp)
  by_cases h2 : o.taskCode = 200
  · exact ⟨h1, h2⟩
  · rw [pollIter_fatal_eq mw el o st h1 h2] at h
    exact absurd h (by simp)

theorem lastApprovalPending_append (l1 l2 : List Event) :
    ∀ p, lastApprovalPending (l1 ++ l2) p = lastApprovalPending l2 (lastApprovalPending l1 p) := by
  induction l1 with
  | nil => intro p; rfl
  | cons ev l1 ih =>
    intro p
    simp only [List.cons_append, lastApprovalPending]
    exact ih _

/-- Run-level de-duplication invariant: over any run of the poll loop, the ids
of the emitted events are pairwise distinct and disjoint from the initial seen
set, and the final seen set is exactly the emitted ids together with the
initial ones. -/
theorem poll_task_seen_spec (mw : ℚ) (el : Nat → ℚ) (obs : Nat → IterObs) :
    ∀ (fuel k : Nat) (st : PollState),
      (∀ v, v ∈ (poll_task mw el obs k fuel st).state.seen ↔
          v ∈ emittedIds (poll_task mw el obs k fuel st).emitted ∨ v ∈ st.seen)
      ∧ (∀ v ∈ emittedIds (poll_task mw el obs k fuel st).emitted, v ∉ st.seen)
      ∧ (emittedIds (poll_task mw el obs k fuel st).emitted).Nodup := by
  intro fuel
  induction fuel with
  | zero =>
    intro k st
    rw [poll_task_zero]
    refine ⟨fun v => by simp [emittedIds], ?_, ?_⟩ <;> simp [emittedIds]
  | succ fuel ih =>
    intro k st
    obtain ⟨i1, i2, i3⟩ := pollIter_seen_spec mw (el k) (obs k) st
    cases hstop : (pollIter mw (el k) (obs k) st).stop with
    | some reason =>
      rw [poll_task_succ_stop mw el obs k fuel st reason hstop]
      exact ⟨i1, i2, i3⟩
    | none =>
      rw [poll_task_succ_cont mw el obs k fuel st hstop]
      obtain ⟨r1, r2, r3⟩ := ih (k + 1) (pollIter mw (el k) (obs k) st).state
      simp only [emittedIds_append]
      refine ⟨?_, ?_, ?_⟩
      · intro v
        rw [r1 v]
        simp only [List.mem_append]
        constructor
        · rintro (hv | hv)
          · exact Or.inl (Or.inr hv)
          · rcases (i1 v).mp hv with hv | hv
            · exact Or.inl (Or.inl hv)
            · exact Or.inr hv
        · rintro ((hv | hv) | hv)
          · exact Or.inr ((i1 v).mpr (Or.inl hv))
          · exact Or.inl hv
          · exact Or.inr ((i1 v).mpr (Or.inr hv))
      · intro v hv
        simp only [List.mem_append] at hv
        rcases hv with hv | hv
        · exact i2 v hv
        · intro hmem
          exact r2 v hv ((i1 v).mpr (Or.inr hmem))
      · rw [List.nodup_append]
        refine ⟨i3, r3, ?_⟩
        intro v hv1 hv2
        exact r2 v hv2 ((i1 v).mpr (Or.inl hv1))

/-- The seen set never shrinks when the loop is allowed one more iteration. -/
theorem poll_task_seen_mono (mw : ℚ) (el : Nat → ℚ) (obs : Nat → IterObs) :
    ∀ (fuel k : Nat) (st : PollState),
      (poll_task mw el obs k fuel st).state.seen ⊆
        (poll_task mw el obs k (fuel + 1) st).state.seen := by
  intro fuel
  induction fuel with
  | zero =>
    intro k st
    rw [poll_task_zero]
    cases hstop : (pollIter mw (el k) (obs k) st).stop with
    | some reason =>
      rw [poll_task_succ_stop mw el obs k 0 st reason hstop]
      exact pollIter_seen_sub mw (el k) (obs k) st
    | none =>
      rw [poll_task_succ_cont mw el obs k 0 st hstop, poll_task_zero]
      exact pollIter_seen_sub mw (el k) (obs k) st
  | succ fuel ih =>
    intro k st
    cases hstop : (pollIter mw (el k) (obs k) st).stop with
    | some reason =>
      rw [poll_task_succ_stop mw el obs k (fuel + 1) st reason hstop,
        poll_task_succ_stop mw el obs k fuel st reason hstop]
      exact fun v hv => hv
    | none =>
      rw [poll_task_succ_cont mw el obs k (fuel + 1) st hstop,
        poll_task_succ_cont mw el obs k fuel st hstop]
      exact ih (k + 1) (pollIter mw (el k) (obs k) st).state

/-- Run-level pending-approval refinement: the recorded pending approval id is
the fold, over the emitted events in order, of "each emitted approvalRequest
overwrites the record with its approval_request_id". -/
theorem poll_task_pending (mw : ℚ) (el : Nat → ℚ) (obs : Nat → IterObs) :
    ∀ (fuel k : Nat) (st : PollState),
      (poll_task mw el obs k fuel st).state.pending =
        lastApprovalPending (poll_task mw el obs k fuel st).emitted st.pending := by
  intro fuel
  induction fuel with
  | zero =>
    intro k st
    rw [poll_task_zero]
    rfl
  | succ fuel ih =>
    intro k st
    cases hstop : (pollIter mw (el k) (obs k) st).stop with
    | some reason =>
      rw [poll_task_succ_stop mw el obs k fuel st reason hstop]
      exact pollIter_pending mw (el k) (obs k) st
    | none =>
      rw [poll_task_succ_cont mw el obs k fuel st hstop]
      rw [lastApprovalPending_append, ← pollIter_pending mw (el k) (obs k) st]
      exact ih (k + 1) (pollIter mw (el k) (obs k) st).state

/-- Run-level token refinement: while the loop is still polling, the stored
continuation token is exactly the spec-side fold `tokenFoldSpec`. -/
theorem poll_task_token (mw : ℚ) (el : Nat → ℚ) (obs : Nat → IterObs) :
    ∀ (fuel k : Nat) (st : PollState),
      (poll_task mw el obs k fuel st).stop = none →
      (poll_task mw el obs k fuel st).state.token = tokenFoldSpec obs st.token k fuel := by
  intro fuel
  induction fuel with
  | zero =>
    intro k st _
    rw [poll_task_zero]
    rfl
  | succ fuel ih =>
    intro k st hnone
    cases hstop : (pollIter mw (el k) (obs k) st).stop with
    | some reason =>
      rw [poll_task_succ_stop mw el obs k fuel st reason hstop] at hnone
      exact absurd hnone (by simp)
    | none =>
      obtain ⟨h1, h2⟩ := pollIter_stop_none_conds mw (el k) (obs k) st hstop
      rw [poll_task_succ_cont mw el obs k fuel st hstop] at hnone ⊢
      simp only [tokenFoldSpec]
      rw [← pollIter_token mw (el k) (obs k) st h1 h2]
      exact ih (k + 1) (pollIter mw (el k) (obs k) st).state hnone

/-- C1: over any poll session started from the initial state, each unique
event id is emitted at most once no matter how often it reappears (the
emitted ids are pairwise distinct), an id is in the seen set exactly when an
event carrying it was emitted (so every first appearance is emitted — exactly
once), and the seen set is monotonically non-decreasing across iterations. -/
theorem poll_emits_each_id_once_and_seen_monotone (mw : ℚ) (el : Nat → ℚ)
    (obs : Nat → IterObs) (fuel k : Nat) :
    (emittedIds (poll_task mw el obs k fuel initState).emitted).Nodup
    ∧ (∀ v, v ∈ (poll_task mw el obs k fuel initState).state.seen ↔
        v ∈ emittedIds (poll_task mw el obs k fuel initState).emitted)
    ∧ (poll_task mw el obs k fuel initState).state.seen ⊆
        (poll_task mw el obs k (fuel + 1) initState).state.seen := by
  obtain ⟨h1, _, h3⟩ := poll_task_seen_spec mw el obs fuel k initState
  refine ⟨h3, ?_, poll_task_seen_mono mw el obs fuel k initState⟩
  intro v
  rw [h1 v]
  simp [initState]

/-- C2: a get_events call whose response status is not 200 returns an empty
event list and no continuation token (and, being total, does not raise), and
a poll iteration whose event fetch got a non-200 response leaves the
caller's seen set and stored continuation token unchanged. -/
theorem get_events_non200_graceful (tok : Option String) (code : Nat)
    (body : EventsPage) (mw el : ℚ) (o : IterObs) (st : PollState)
    (hcode : code ≠ 200) (hocode : o.eventsCode ≠ 200) :
    (get_events tok code body).2 = ([], none)
    ∧ (pollIter mw el o st).state.seen = st.seen
    ∧ (pollIter mw el o st).state.token = st.token := by
  have hfetch : fetchedEvents o = [] := by
    simp [fetchedEvents, hocode]
  have hret : returnedToken o = none := by
    simp [returnedToken, hocode]
  refine ⟨by simp [get_events, hcode], ?_, ?_⟩
  · by_cases h1 : mw < el
    · rw [pollIter_timeout_eq mw el o st h1]
    by_cases h2 : o.taskCode = 200
    · rw [(pollIter_state_emitted mw el o st h1 h2).1, pollFetchStep_seen, hfetch]
      rfl
    · rw [pollIter_fatal_eq mw el o st h1 h2]
  · by_cases h1 : mw < el
    · rw [pollIter_timeout_eq mw el o st h1]
    by_cases h2 : o.taskCode = 200
    · rw [pollIter_token mw el o st h1 h2, hret]
      rfl
    · rw [pollIter_fatal_eq mw el o st h1 h2]

theorem get_events_non200_graceful_witness :
    (get_events (some ("tok1")) 500 { events := [{ id := some (Json.str ("e1")) }] }).2
      = ([], none)
    ∧ (pollIter 600 0
        { taskStatus := some ("running"), eventsCode := 500,
          eventsBody := { events := [{ id := some (Json.str ("e1")) }] } }
        initState).state.seen = initState.seen
    ∧ (pollIter 600 0
        { taskStatus := some ("running"), eventsCode := 500,
          eventsBody := { events := [{ id := some (Json.str ("e1")) }] } }
        initState).state.token = initState.token :=
  get_events_non200_graceful (some ("tok1")) 500
    { events := [{ id := some (Json.str ("e1")) }] } 600 0
    { taskStatus := some ("running"), eventsCode := 500,
      eventsBody := { events := [{ id := some (Json.str ("e1")) }] } }
    initState (by decide) (by decide)

/-- C3: as long as the session is still polling after `fuel` iterations, the
stored continuation token — the one the fetch of the next iteration will be
passed — equals the claim-side fold `tokenFoldSpec`: the token returned by the
most recent fetch that returned a truthy (non-empty) one, and `none` while no
fetch has returned one yet. -/
theorem continuation_token_spec (mw : ℚ) (el : Nat → ℚ) (obs : Nat → IterObs)
    (fuel k : Nat)
    (h : (poll_task mw el obs k fuel initState).stop = none) :
    (poll_task mw el obs k fuel initState).state.token = tokenFoldSpec obs none k fuel :=
  poll_task_token mw el obs fuel k initState h

theorem continuation_token_spec_witness :
    (poll_task 600 (fun _ => 0)
      (fun j => if j = 0 then
          { taskStatus := some ("running"),
            eventsBody := { continuationToken := some ("tokA") } }
        else
          { taskStatus := some ("running"),
            eventsBody := { continuationToken := some ("") } })
      0 2 initState).state.token =
      tokenFoldSpec
        (fun j => if j = 0 then
            { taskStatus := some ("running"),
              eventsBody := { continuationToken := some ("tokA") } }
          else
            { taskStatus := some ("running"),
              eventsBody := { continuationToken := some ("") } })
        none 0 2 :=
  continuation_token_spec 600 (fun _ => 0)
    (fun j => if j = 0 then
        { taskStatus := some ("running"),
          eventsBody := { continuationToken := some ("tokA") } }
      else
        { taskStatus := some ("running"),
          eventsBody := { continuationToken := some ("") } })
    2 0 (by decide)

/-- C5: the create-task CLI path with a stack name but no stack project exits
non-zero during flag validation, before create_task and hence before any
network call; with both a stack name and a stack project (and no repository
context) it builds a payload whose entity-diff add list is exactly one stack
entity carrying those two fields, with an empty remove list. -/
theorem create_task_stack_validation (n p msg ts : String)
    (hn : ¬ n = "") (hp : ¬ p = "") :
    main_create msg ts (some n) none none none ("github") = CreateOutcome.invalidExit
    ∧ main_create msg ts (some n) (some p) none none ("github") =
        CreateOutcome.request
          { type_ := "user_message", content := msg, timestamp := ts,
            entity_diff_add := [Entity.stack n p], entity_diff_remove := [] } := by
  constructor
  · unfold main_create
    simp [strTruthy, hn]
  · unfold main_create create_task_payload create_entities
    simp [strTruthy, hn, hp]

theorem create_task_stack_validation_witness :
    main_create ("optimize") ("t0") (some ("prod")) none none none ("github")
      = CreateOutcome.invalidExit
    ∧ main_create ("optimize") ("t0") (some ("prod")) (some ("infra")) none none ("github")
      = CreateOutcome.request
          { type_ := "user_message", content := "optimize", timestamp := "t0",
            entity_diff_add := [Entity.stack ("prod") ("infra")],
            entity_diff_remove := [] } :=
  create_task_stack_validation ("prod") ("infra") ("optimize") ("t0")
    (by decide) (by decide)

/-- C8: each of send_approval, send_cancel and send_message reports success
exactly when the response status code is 202; any other code yields `false`
(the functions are total, so they never terminate the process). -/
theorem send_success_iff_202 (arid : Json) (ts1 ts2 ts3 msg : String) (code : Nat) :
    ((send_approval arid ts1 code).2 = true ↔ code = 202)
    ∧ ((send_cancel ts2 code).2 = true ↔ code = 202)
    ∧ ((send_message msg ts3 code).2 = true ↔ code = 202) := by
  refine ⟨?_, ?_, ?_⟩ <;> simp [send_approval, send_cancel, send_message]

/-- C9: an event whose id is missing or falsy is never displayed, never added
to the seen set, and never updates the pending approval id — whatever its
type, approvalRequest included: the per-event step leaves the state unchanged
and emits nothing, and removing such an event from anywhere in a fetched page
does not change the result of processing the page. -/
theorem falsy_id_event_ignored (st : PollState) (ev : Event)
    (l1 l2 : List Event) (h : optTruthy ev.id = false) :
    processEvent st ev = (st, [])
    ∧ processEvents st (l1 ++ ev :: l2) = processEvents st (l1 ++ l2) := by
  refine ⟨processEvent_skip st ev h, ?_⟩
  induction l1 generalizing st with
  | nil =>
    simp only [List.nil_append, processEvents, processEvent_skip st ev h]
  | cons e l1 ih =>
    simp only [List.cons_append, processEvents, List.append_eq]
    rw [ih]

theorem falsy_id_event_ignored_witness :
    processEvent initState
      { id := some (Json.num 0), type_ := some (Json.str ("approvalRequest")),
        eventBody := [(("approval_request_id"), Json.str ("req_7"))] }
      = (initState, [])
    ∧ processEvents initState
        ([{ id := some (Json.str ("a")) }] ++
          { id := some (Json.num 0), type_ := some (Json.str ("approvalRequest")),
            eventBody := [(("approval_request_id"), Json.str ("req_7"))] } ::
          [{ id := some (Json.str ("b")) }])
      = processEvents initState
          ([{ id := some (Json.str ("a")) }] ++ [{ id := some (Json.str ("b")) }]) :=
  falsy_id_event_ignored initState
    { id := some (Json.num 0), type_ := some (Json.str ("approvalRequest")),
      eventBody := [(("approval_request_id"), Json.str ("req_7"))] }
    [{ id := some (Json.str ("a")) }] [{ id := some (Json.str ("b")) }]
    (by decide)

theorem pollIter_terminal_eq (mw el : ℚ) (o : IterObs) (st : PollState)
    (h1 : ¬ mw < el) (h2 : o.taskCode = 200)
    (hs : statusOf o = "completed" ∨ statusOf o = "failed") :
    pollIter mw el o st =
      ⟨(pollFetchStep o st).1, (pollFetchStep o st).2, some StopReason.terminal, false⟩ := by
  unfold pollIter
  rw [if_neg h1, if_neg (not_not_intro h2), if_pos hs]

theorem processEvents_single (st : PollState) (ev : Event) (v : Json)
    (hid : ev.id = some v) (ht : v.truthy = true) (hn : v ∉ st.seen) :
    processEvents st [ev] = (stepState ev v st, [ev]) := by
  simp only [processEvents, processEvent_emit st ev v hid ht hn]
  rfl

theorem pollFetchStep_single (status : String) (ev : Event) (v : Json)
    (st : PollState)
    (hid : ev.id = some v) (ht : v.truthy = true) (hn : v ∉ st.seen) :
    pollFetchStep { taskStatus := some status, eventsBody := { events := [ev] } } st
      = (stepState ev v st, [ev]) := by
  have hfe : fetchedEvents
      { taskStatus := some status, eventsBody := { events := [ev] } } = [ev] := rfl
  have hrt : returnedToken
      { taskStatus := some status, eventsBody := { events := [ev] } } = none := rfl
  rw [pollFetchStep_eq, hfe, hrt, processEvents_single st ev v hid ht hn]
  rfl

theorem pollIter_continue_single (mw el : ℚ) (status : String) (ev : Event)
    (v : Json) (st : PollState) (h1 : ¬ mw < el)
    (hid : ev.id = some v) (ht : v.truthy = true) (hn : v ∉ st.seen)
    (hs1 : status ≠ "completed") (hs2 : status ≠ "failed")
    (hs3 : status ≠ "waiting_for_approval") :
    pollIter mw el { taskStatus := some status, eventsBody := { events := [ev] } } st
      = ⟨stepState ev v st, [ev], none, true⟩ := by
  rw [pollIter_continue_eq mw el
      { taskStatus := some status, eventsBody := { events := [ev] } } st h1 rfl hs1 hs2 hs3,
    pollFetchStep_single status ev v st hid ht hn]

theorem pollIter_terminal_single (mw el : ℚ) (ev : Event) (v : Json)
    (st : PollState) (h1 : ¬ mw < el)
    (hid : ev.id = some v) (ht : v.truthy = true) (hn : v ∉ st.seen) :
    pollIter mw el
        { taskStatus := some ("completed"), eventsBody := { events := [ev] } } st
      = ⟨stepState ev v st, [ev], some StopReason.terminal, false⟩ := by
  rw [pollIter_terminal_eq mw el
      { taskStatus := some ("completed"), eventsBody := { events := [ev] } } st h1 rfl
      (Or.inl rfl),
    pollFetchStep_single ("completed") ev v st hid ht hn]

theorem poll_task_timeout_now (mw : ℚ) (el : Nat → ℚ) (obs : Nat → IterObs)
    (k f : Nat) (st : PollState) (h : mw < el k) :
    poll_task mw el obs k (f + 1) st = ⟨st, [], some StopReason.timeout, 0, 0⟩ := by
  rw [poll_task_succ_stop mw el obs k f st StopReason.timeout
    (by rw [pollIter_timeout_eq mw (el k) (obs k) st h])]
  rw [pollIter_timeout_eq mw (el k) (obs k) st h]
  simp

/-- C4: with a maximum wait of 10 and a poll interval of 5, against a task
whose status never becomes terminal or approval-required (and whose status
fetches succeed), under a time model in which each iteration advances the
clock by the 5-second sleep plus a positive amount of request time, the loop
stops with a timeout outcome — decided by the elapsed-versus-max-wait check
at the top of each iteration — and performs at most 2 full iterations
(status fetch plus event fetch) whatever the iteration budget. -/
theorem timeout_after_two_full_iterations (el : Nat → ℚ) (obs : Nat → IterObs)
    (h0 : 0 ≤ el 0)
    (hstep : ∀ k, el k + 5 < el (k + 1))
    (hobs : ∀ k, (obs k).taskCode = 200 ∧ statusOf (obs k) ≠ "completed"
      ∧ statusOf (obs k) ≠ "failed" ∧ statusOf (obs k) ≠ "waiting_for_approval")
    (m f : Nat) :
    (poll_task 10 el obs 0 (m + 3) initState).stop = some StopReason.timeout
    ∧ (poll_task 10 el obs 0 f initState).fullIters ≤ 2 := by
  have h01 : el 0 + 5 < el 1 := hstep 0
  have h12 : el 1 + 5 < el 2 := hstep 1
  have hel2 : (10 : ℚ) < el 2 := by linarith
  have hcont : ∀ (k : Nat) (st : PollState), ¬ (10 : ℚ) < el k →
      (pollIter 10 (el k) (obs k) st).stop = none := by
    intro k st hk
    obtain ⟨hc, hs1, hs2, hs3⟩ := hobs k
    rw [pollIter_continue_eq 10 (el k) (obs k) st hk hc hs1 hs2 hs3]
  constructor
  · rw [show poll_task 10 el obs 0 (m + 3) initState
        = poll_task 10 el obs 0 (m + 2 + 1) initState from rfl]
    by_cases ha : (10 : ℚ) < el 0
    · rw [poll_task_timeout_now 10 el obs 0 (m + 2) initState ha]
    rw [poll_task_succ_cont 10 el obs 0 (m + 2) initState (hcont 0 initState ha)]
    rw [show poll_task 10 el obs 1 (m + 2) (pollIter 10 (el 0) (obs 0) initState).state
        = poll_task 10 el obs 1 (m + 1 + 1) (pollIter 10 (el 0) (obs 0) initState).state
        from rfl]
    by_cases hb : (10 : ℚ) < el 1
    · rw [poll_task_timeout_now 10 el obs 1 (m + 1) _ hb]
    rw [poll_task_succ_cont 10 el obs 1 (m + 1) _ (hcont 1 _ hb)]
    rw [show (m + 1 : Nat) = m + 1 from rfl]
    rw [poll_task_timeout_now 10 el obs 2 m _ hel2]
  · cases f with
    | zero =>
      rw [poll_task_zero]
      exact Nat.zero_le 2
    | succ f =>
      by_cases ha : (10 : ℚ) < el 0
      · rw [poll_task_timeout_now 10 el obs 0 f initState ha]
        exact Nat.zero_le 2
      rw [poll_task_succ_cont 10 el obs 0 f initState (hcont 0 initState ha)]
      cases f with
      | zero =>
        rw [poll_task_zero]
        exact Nat.le_succ 1
      | succ f =>
        by_cases hb : (10 : ℚ) < el 1
        · rw [poll_task_timeout_now 10 el obs 1 f _ hb]
          exact Nat.le_succ 1
        rw [poll_task_succ_cont 10 el obs 1 f _ (hcont 1 _ hb)]
        cases f with
        | zero =>
          rw [poll_task_zero]
          exact Nat.le.refl
        | succ f =>
          rw [poll_task_timeout_now 10 el obs 2 f _ hel2]
          exact Nat.le.refl

theorem timeout_after_two_full_iterations_witness :
    (poll_task 10 elSix obsRunning 0 3 initState).stop = some StopReason.timeout
    ∧ (poll_task 10 elSix obsRunning 0 5 initState).fullIters ≤ 2 :=
  timeout_after_two_full_iterations elSix obsRunning
    (by norm_num [elSix])
    (by
      intro k
      simp only [elSix]
      push_cast
      linarith)
    (by
      intro k
      refine ⟨rfl, ?_, ?_, ?_⟩ <;>
        (simp only [obsRunning, statusOf]; decide))
    0 5

/-- C6: over any poll session from the initial state, the recorded pending
approval id is the fold of the emitted events in which each newly seen
approvalRequest overwrites the record (only the latest is kept); in
particular, when the most recently emitted approvalRequest carries id
"req_42" the record equals "req_42"; and an iteration that fetches status
`waiting_for_approval` while the recorded pending id is truthy stops the loop
with the awaiting-approval outcome. -/
theorem waiting_approval_latest_pending (mw : ℚ) (el : Nat → ℚ)
    (obs : Nat → IterObs) (fuel k : Nat) (mw2 el2 : ℚ) (o : IterObs)
    (st : PollState)
    (h1 : ¬ mw2 < el2) (h2 : o.taskCode = 200)
    (hs : statusOf o = "waiting_for_approval")
    (hp : optTruthy (pollIter mw2 el2 o st).state.pending = true)
    (hreq : lastApprovalPending (poll_task mw el obs k fuel initState).emitted none
        = some (Json.str ("req_42"))) :
    (poll_task mw el obs k fuel initState).state.pending
        = lastApprovalPending (poll_task mw el obs k fuel initState).emitted none
    ∧ (poll_task mw el obs k fuel initState).state.pending = some (Json.str ("req_42"))
    ∧ (pollIter mw2 el2 o st).stop = some StopReason.approval := by
  have hpend : (poll_task mw el obs k fuel initState).state.pending
      = lastApprovalPending (poll_task mw el obs k fuel initState).emitted none :=
    poll_task_pending mw el obs fuel k initState
  refine ⟨hpend, hpend.trans hreq, ?_⟩
  have hp' : optTruthy (pollFetchStep o st).1.pending = true := by
    rw [(pollIter_state_emitted mw2 el2 o st h1 h2).1] at hp
    exact hp
  rw [pollIter_approval_eq mw2 el2 o st h1 h2 hs hp']

theorem waiting_approval_latest_pending_witness :
    (poll_task 600 (fun _ => 0) obsApprove 0 2 initState).state.pending
        = lastApprovalPending
            (poll_task 600 (fun _ => 0) obsApprove 0 2 initState).emitted none
    ∧ (poll_task 600 (fun _ => 0) obsApprove 0 2 initState).state.pending
        = some (Json.str ("req_42"))
    ∧ (pollIter 600 0 (obsApprove 1) stApprove).stop = some StopReason.approval :=
  waiting_approval_latest_pending 600 (fun _ => 0) obsApprove 2 0 600 0
    (obsApprove 1) stApprove
    (by decide) (by decide) (by decide) (by decide) (by decide)

/-- C10: when both the approve and the cancel flag are set together with a
task id, the approve/cancel branch of main behaves exactly as if only approve
were set — the dispatch reads only the approve flag, so the combination is
not rejected and a cancellation is never sent. -/
theorem approve_and_cancel_behaves_as_approve (tid : String) (aid : Option String)
    (events : List Event) (htid : ¬ tid = "") :
    main_respond true true (some tid) aid events
        = main_respond true false (some tid) aid events
    ∧ main_respond true true (some tid) aid events ≠ RespondOutcome.cancelSent := by
  have key : ∀ oa : Option Json,
      (match oa with
        | some v => if v.truthy then RespondOutcome.approvalSent v
            else RespondOutcome.exitMissingApprovalId
        | none => RespondOutcome.exitMissingApprovalId) ≠ RespondOutcome.cancelSent := by
    intro oa
    cases oa with
    | none => simp
    | some v =>
      by_cases hv : v.truthy = true <;> simp [hv]
  refine ⟨rfl, ?_⟩
  unfold main_respond
  have ht : strTruthy (some tid) = true := by
    simp [strTruthy, htid]
  rw [ht]
  simp only [Bool.not_true, Bool.false_eq_true, if_false, if_true]
  exact key _

theorem approve_and_cancel_behaves_as_approve_witness :
    main_respond true true (some ("task_1")) none
        [{ id := some (Json.str ("e1")), type_ := some (Json.str ("approvalRequest")),
           eventBody := [(("approval_request_id"), Json.str ("req_9"))] }]
      = main_respond true false (some ("task_1")) none
          [{ id := some (Json.str ("e1")), type_ := some (Json.str ("approvalRequest")),
             eventBody := [(("approval_request_id"), Json.str ("req_9"))] }]
    ∧ main_respond true true (some ("task_1")) none
        [{ id := some (Json.str ("e1")), type_ := some (Json.str ("approvalRequest")),
           eventBody := [(("approval_request_id"), Json.str ("req_9"))] }]
      ≠ RespondOutcome.cancelSent :=
  approve_and_cancel_behaves_as_approve ("task_1") none
    [{ id := some (Json.str ("e1")), type_ := some (Json.str ("approvalRequest")),
       eventBody := [(("approval_request_id"), Json.str ("req_9"))] }]
    (by decide)

/-- C7: against a task observed as running, running, completed, with three
consecutive event fetches each returning one fresh event, the poll loop from
the initial state emits exactly those three formatted events, stops with a
terminal outcome immediately after the third status check having performed
exactly 3 full iterations and exactly 2 sleeps (none after the terminal
status); and, in general, an iteration that passes the timeout check and
whose status fetch succeeds stops with a terminal outcome exactly when the
fetched status is `completed` or `failed`. -/
theorem terminal_run_three_events (mw : ℚ) (el : Nat → ℚ) (obs : Nat → IterObs)
    (e1 e2 e3 : Event) (v1 v2 v3 : Json) (m : Nat)
    (mw2 el2 : ℚ) (o : IterObs) (st : PollState) (s : String)
    (hid1 : e1.id = some v1) (hid2 : e2.id = some v2) (hid3 : e3.id = some v3)
    (ht1 : v1.truthy = true) (ht2 : v2.truthy = true) (ht3 : v3.truthy = true)
    (hd12 : v1 ≠ v2) (hd13 : v1 ≠ v3) (hd23 : v2 ≠ v3)
    (ho0 : obs 0 = { taskStatus := some ("running"), eventsBody := { events := [e1] } })
    (ho1 : obs 1 = { taskStatus := some ("running"), eventsBody := { events := [e2] } })
    (ho2 : obs 2 = { taskStatus := some ("completed"), eventsBody := { events := [e3] } })
    (hel : ∀ k, ¬ mw < el k)
    (h1 : ¬ mw2 < el2) (h2 : o.taskCode = 200) (hos : statusOf o = s) :
    (poll_task mw el obs 0 (m + 3) initState).emitted = [e1, e2, e3]
    ∧ (poll_task mw el obs 0 (m + 3) initState).stop = some StopReason.terminal
    ∧ (poll_task mw el obs 0 (m + 3) initState).fullIters = 3
    ∧ (poll_task mw el obs 0 (m + 3) initState).sleeps = 2
    ∧ ((pollIter mw2 el2 o st).stop = some StopReason.terminal
        ↔ (s = "completed" ∨ s = "failed")) := by
  have i0 : pollIter mw (el 0) (obs 0) initState
      = ⟨stepState e1 v1 initState, [e1], none, true⟩ := by
    rw [ho0]
    exact pollIter_continue_single mw (el 0) ("running") e1 v1 initState (hel 0)
      hid1 ht1 (by simp [initState]) (by decide) (by decide) (by decide)
  have hn2 : v2 ∉ (stepState e1 v1 initState).seen := by
    simp only [stepState, initState, List.mem_cons]
    rintro (h | h)
    · exact hd12 h.symm
    · simp at h
  have i1 : pollIter mw (el 1) (obs 1) (stepState e1 v1 initState)
      = ⟨stepState e2 v2 (stepState e1 v1 initState), [e2], none, true⟩ := by
    rw [ho1]
    exact pollIter_continue_single mw (el 1) ("running") e2 v2 _ (hel 1)
      hid2 ht2 hn2 (by decide) (by decide) (by decide)
  have hn3 : v3 ∉ (stepState e2 v2 (stepState e1 v1 initState)).seen := by
    simp only [stepState, initState, List.mem_cons]
    rintro (h | h | h)
    · exact hd23 h.symm
    · exact hd13 h.symm
    · simp at h
  have i2 : pollIter mw (el 2) (obs 2) (stepState e2 v2 (stepState e1 v1 initState))
      = ⟨stepState e3 v3 (stepState e2 v2 (stepState e1 v1 initState)), [e3],
          some StopReason.terminal, false⟩ := by
    rw [ho2]
    exact pollIter_terminal_single mw (el 2) e3 v3 _ (hel 2) hid3 ht3 hn3
  have s0 : (pollIter mw (el 0) (obs 0) initState).stop = none := by rw [i0]
  have s0s : (pollIter mw (el 0) (obs 0) initState).state
      = stepState e1 v1 initState := by rw [i0]
  have s0e : (pollIter mw (el 0) (obs 0) initState).emitted = [e1] := by rw [i0]
  have s1 : (pollIter mw (el 1) (obs 1) (stepState e1 v1 initState)).stop = none := by
    rw [i1]
  have s1s : (pollIter mw (el 1) (obs 1) (stepState e1 v1 initState)).state
      = stepState e2 v2 (stepState e1 v1 initState) := by rw [i1]
  have s1e : (pollIter mw (el 1) (obs 1) (stepState e1 v1 initState)).emitted
      = [e2] := by rw [i1]
  have s2 : (pollIter mw (el 2) (obs 2)
      (stepState e2 v2 (stepState e1 v1 initState))).stop
      = some StopReason.terminal := by rw [i2]
  have hB : poll_task mw el obs 2 (m + 1)
      (stepState e2 v2 (stepState e1 v1 initState))
      = ⟨stepState e3 v3 (stepState e2 v2 (stepState e1 v1 initState)), [e3],
          some StopReason.terminal, 1, 0⟩ := by
    rw [poll_task_succ_stop mw el obs 2 m _ StopReason.terminal s2]
    rw [i2]
    rfl
  have hM : poll_task mw el obs 1 (m + 1 + 1) (stepState e1 v1 initState)
      = ⟨stepState e3 v3 (stepState e2 v2 (stepState e1 v1 initState)), [e2, e3],
          some StopReason.terminal, 2, 1⟩ := by
    rw [poll_task_succ_cont mw el obs 1 (m + 1) _ s1]
    rw [s1s, s1e, hB]
    rfl
  have hR : poll_task mw el obs 0 (m + 3) initState
      = ⟨stepState e3 v3 (stepState e2 v2 (stepState e1 v1 initState)),
          [e1, e2, e3], some StopReason.terminal, 3, 2⟩ := by
    rw [show poll_task mw el obs 0 (m + 3) initState
        = poll_task mw el obs 0 (m + 2 + 1) initState from rfl]
    rw [poll_task_succ_cont mw el obs 0 (m + 2) initState s0]
    rw [s0s, s0e]
    rw [show poll_task mw el obs 1 (m + 2) (stepState e1 v1 initState)
        = poll_task mw el obs 1 (m + 1 + 1) (stepState e1 v1 initState) from rfl]
    rw [hM]
    rfl
  refine ⟨by rw [hR], by rw [hR], by rw [hR], by rw [hR], ?_⟩
  rw [pollIter_terminal_iff mw2 el2 o st h1 h2, hos]

theorem terminal_run_three_events_witness :
    (poll_task 600 (fun _ => 0) obsTerminal 0 3 initState).emitted
      = [evT1, evT2, evT3]
    ∧ (poll_task 600 (fun _ => 0) obsTerminal 0 3 initState).stop
      = some StopReason.terminal
    ∧ (poll_task 600 (fun _ => 0) obsTerminal 0 3 initState).fullIters = 3
    ∧ (poll_task 600 (fun _ => 0) obsTerminal 0 3 initState).sleeps = 2
    ∧ ((pollIter 600 0 { taskStatus := some ("completed") } initState).stop
        = some StopReason.terminal
      ↔ (("completed" : String) = "completed" ∨ ("completed" : String) = "failed")) :=
  terminal_run_three_events 600 (fun _ => 0) obsTerminal evT1 evT2 evT3
    (Json.str ("x1")) (Json.str ("x2")) (Json.str ("x3")) 0 600 0
    { taskStatus := some ("completed") } initState ("completed")
    rfl rfl rfl (by decide) (by decide) (by decide)
    (by decide) (by decide) (by decide)
    rfl rfl rfl
    (by
      intro k
      show ¬ (600 : ℚ) < 0
      decide)
    (by decide) rfl rfl

end NeoTask
